import Mathlib

/-!
Verification of the longitudinal vehicle model
(Course_1_Module_4/Longitudinal_Vehicle_Model.ipynb).

The source is a single Python class Vehicle holding immutable physical
parameters and a mutable five-field dynamic state, with a forward-Euler
step function. The embedding below translates the class into a Lean
structure over the exact rationals and the step method into a pure
state-to-state function. Floating-point arithmetic is modelled by exact
rational arithmetic; np.sin is an external transcendental routine, so the
embedding takes sin_alpha, the sine of the incline angle, as the second
per-call input (the model reads the incline angle only through np.sin, and
every claim about all real incline angles is rendered as a claim about all
rational values of its sine).
-/

/-- The Vehicle class of the source: parameter attributes (a_0 .. F_max,
sample_time) and the five state attributes (x, v, a, w_e, w_e_dot), all
set in the constructor. -/
structure Vehicle where
  a_0 : ℚ
  a_1 : ℚ
  a_2 : ℚ
  GR : ℚ
  r_e : ℚ
  J_e : ℚ
  m : ℚ
  g : ℚ
  c_a : ℚ
  c_r1 : ℚ
  c : ℚ
  F_max : ℚ
  x : ℚ
  v : ℚ
  a : ℚ
  w_e : ℚ
  w_e_dot : ℚ
  sample_time : ℚ

/-- Vehicle.__init__: the default parameter values and default initial
state of the source constructor. -/
def Vehicle.init : Vehicle where
  a_0 := 400
  a_1 := 0.1
  a_2 := -0.0002
  GR := 0.35
  r_e := 0.3
  J_e := 10
  m := 2000
  g := 9.81
  c_a := 1.36
  c_r1 := 0.01
  c := 10000
  F_max := 10000
  x := 0
  v := 5
  a := 0
  w_e := 100
  w_e_dot := 0
  sample_time := 0.01

/-- Vehicle.reset: restores the five state attributes to their defaults,
touching nothing else. -/
def Vehicle.reset (veh : Vehicle) : Vehicle :=
  { veh with x := 0, v := 5, a := 0, w_e := 100, w_e_dot := 0 }

/-- Vehicle.step, line for line from the source. sin_alpha stands for
np.sin(alpha). Python reassignment of F_x after the clamp test is the
shadowing let. The five assignments to self are the final record update. -/
def Vehicle.step (veh : Vehicle) (throttle sin_alpha : ℚ) : Vehicle :=
  let x := veh.x + veh.v * veh.sample_time
  let s := (veh.GR * veh.w_e * veh.r_e - veh.v) / veh.v
  let F_x := veh.c * s
  let F_x := if F_x ≥ veh.F_max then veh.F_max else F_x
  let F_g := veh.m * veh.g * sin_alpha
  let R_x := veh.c_r1 * veh.v
  let F_aero := veh.c_a * veh.v ^ 2
  let F_load := F_aero + R_x + F_g
  let v := veh.v + veh.a * veh.sample_time
  let a := (F_x - F_load) / veh.m
  let T_e := throttle * (veh.a_0 + veh.a_1 * veh.w_e + veh.a_2 * veh.w_e ^ 2)
  let w_e := veh.w_e + veh.w_e_dot * veh.sample_time
  let w_e_dot := (T_e - veh.GR * veh.r_e * F_load) / veh.J_e
  { veh with x := x, v := v, a := a, w_e := w_e, w_e_dot := w_e_dot }

/-- A finite sequence of step calls, each with its own (throttle,
sin of incline angle) input pair, as performed by the external driving
loops of the notebook. -/
def runSteps : Vehicle → List (ℚ × ℚ) → Vehicle
  | veh, [] => veh
  | veh, p :: l => runSteps (veh.step p.1 p.2) l

/-- Velocity after n zero-input steps (throttle = 0, incline angle = 0)
from the default state, as in the zero-input scenario. -/
def vAt (n : ℕ) : ℚ :=
  (runSteps Vehicle.init (List.replicate n (0, 0))).v

/-- An Except-valued variant of step that reports, instead of silently
computing, whenever one of the three divisors of the step body (the
pre-step velocity in the slip ratio, the mass, the engine inertia) is
zero. -/
def Vehicle.stepE (veh : Vehicle) (throttle sin_alpha : ℚ) : Except String Vehicle :=
  if veh.v = 0 then Except.error "slip ratio divides by zero velocity"
  else if veh.m = 0 then Except.error "acceleration divides by zero mass"
  else if veh.J_e = 0 then Except.error "engine acceleration divides by zero inertia"
  else Except.ok (veh.step throttle sin_alpha)

/-- The throttle profile of the ramp scenario loop (cell 7): ramp 0.2 to
0.5 over the first 5 seconds, hold 0.5 until 15 seconds, ramp back to 0
over the last 5 seconds. -/
def throttleProfile (t : ℚ) : ℚ :=
  if t ≤ 5 then 0.2 + ((0.5 - 0.2) / 5) * t
  else if t ≤ 15 then 0.5
  else 0.5 + ((0 - 0.5) / 5) * (t - 15)

/-- The time stamps of the ramp scenario: np.arange(0, 20, 0.01), so index
i carries time i * 0.01. -/
def t_data (i : ℕ) : ℚ := i * 0.01

lemma runSteps_cons (veh : Vehicle) (p : ℚ × ℚ) (l : List (ℚ × ℚ)) :
    runSteps veh (p :: l) = runSteps (veh.step p.1 p.2) l := rfl

lemma runSteps_m : ∀ (l : List (ℚ × ℚ)) (veh : Vehicle), (runSteps veh l).m = veh.m
  | [], _ => rfl
  | _ :: l, veh => runSteps_m l (veh.step _ _)

lemma runSteps_J_e : ∀ (l : List (ℚ × ℚ)) (veh : Vehicle), (runSteps veh l).J_e = veh.J_e
  | [], _ => rfl
  | _ :: l, veh => runSteps_J_e l (veh.step _ _)

/-- C1: with nonzero pre-step velocity, step advances position, velocity
and engine speed with the previous derivatives, then recomputes the
acceleration from the clamped tire force and load force and the engine
angular acceleration from the engine torque and load force, all evaluated
on the pre-step state. -/
theorem step_lagged_euler (veh : Vehicle) (throttle sin_alpha : ℚ)
    (_hv : veh.v ≠ 0) :
    (veh.step throttle sin_alpha).x = veh.x + veh.v * veh.sample_time ∧
    (veh.step throttle sin_alpha).v = veh.v + veh.a * veh.sample_time ∧
    (veh.step throttle sin_alpha).w_e = veh.w_e + veh.w_e_dot * veh.sample_time ∧
    (veh.step throttle sin_alpha).a =
      ((if veh.c * ((veh.GR * veh.w_e * veh.r_e - veh.v) / veh.v) ≥ veh.F_max
          then veh.F_max
          else veh.c * ((veh.GR * veh.w_e * veh.r_e - veh.v) / veh.v)) -
        (veh.c_a * veh.v ^ 2 + veh.c_r1 * veh.v + veh.m * veh.g * sin_alpha)) / veh.m ∧
    (veh.step throttle sin_alpha).w_e_dot =
      (throttle * (veh.a_0 + veh.a_1 * veh.w_e + veh.a_2 * veh.w_e ^ 2) -
        veh.GR * veh.r_e *
          (veh.c_a * veh.v ^ 2 + veh.c_r1 * veh.v + veh.m * veh.g * sin_alpha)) / veh.J_e :=
  ⟨rfl, rfl, rfl, rfl, rfl⟩

/-- Witness for C1 at the default state with zero throttle and level
road. -/
theorem step_lagged_euler_witness :
    Vehicle.init.v ≠ 0 ∧
    ((Vehicle.init.step 0 0).x =
        Vehicle.init.x + Vehicle.init.v * Vehicle.init.sample_time ∧
      (Vehicle.init.step 0 0).v =
        Vehicle.init.v + Vehicle.init.a * Vehicle.init.sample_time ∧
      (Vehicle.init.step 0 0).w_e =
        Vehicle.init.w_e + Vehicle.init.w_e_dot * Vehicle.init.sample_time ∧
      (Vehicle.init.step 0 0).a =
        ((if Vehicle.init.c *
              ((Vehicle.init.GR * Vehicle.init.w_e * Vehicle.init.r_e - Vehicle.init.v) /
                Vehicle.init.v) ≥ Vehicle.init.F_max
            then Vehicle.init.F_max
            else Vehicle.init.c *
              ((Vehicle.init.GR * Vehicle.init.w_e * Vehicle.init.r_e - Vehicle.init.v) /
                Vehicle.init.v)) -
          (Vehicle.init.c_a * Vehicle.init.v ^ 2 + Vehicle.init.c_r1 * Vehicle.init.v +
            Vehicle.init.m * Vehicle.init.g * 0)) / Vehicle.init.m ∧
      (Vehicle.init.step 0 0).w_e_dot =
        (0 * (Vehicle.init.a_0 + Vehicle.init.a_1 * Vehicle.init.w_e +
            Vehicle.init.a_2 * Vehicle.init.w_e ^ 2) -
          Vehicle.init.GR * Vehicle.init.r_e *
            (Vehicle.init.c_a * Vehicle.init.v ^ 2 + Vehicle.init.c_r1 * Vehicle.init.v +
              Vehicle.init.m * Vehicle.init.g * 0)) / Vehicle.init.J_e) :=
  ⟨by decide, step_lagged_euler Vehicle.init 0 0 (by decide)⟩

/-- C2: with nonzero pre-step velocity, if the raw tire force c * s meets
or exceeds F_max then the force entering the acceleration is exactly
F_max; otherwise the raw force c * s is used unmodified, with no lower
clamp. -/
theorem step_tire_force_clamp (veh : Vehicle) (throttle sin_alpha : ℚ)
    (_hv : veh.v ≠ 0) :
    (veh.c * ((veh.GR * veh.w_e * veh.r_e - veh.v) / veh.v) ≥ veh.F_max →
      (veh.step throttle sin_alpha).a =
        (veh.F_max -
          (veh.c_a * veh.v ^ 2 + veh.c_r1 * veh.v + veh.m * veh.g * sin_alpha)) / veh.m) ∧
    (veh.c * ((veh.GR * veh.w_e * veh.r_e - veh.v) / veh.v) < veh.F_max →
      (veh.step throttle sin_alpha).a =
        (veh.c * ((veh.GR * veh.w_e * veh.r_e - veh.v) / veh.v) -
          (veh.c_a * veh.v ^ 2 + veh.c_r1 * veh.v + veh.m * veh.g * sin_alpha)) / veh.m) := by
  have ha : (veh.step throttle sin_alpha).a =
      ((if veh.c * ((veh.GR * veh.w_e * veh.r_e - veh.v) / veh.v) ≥ veh.F_max
          then veh.F_max
          else veh.c * ((veh.GR * veh.w_e * veh.r_e - veh.v) / veh.v)) -
        (veh.c_a * veh.v ^ 2 + veh.c_r1 * veh.v + veh.m * veh.g * sin_alpha)) / veh.m := rfl
  refine ⟨fun h => ?_, fun h => ?_⟩
  · rw [ha, if_pos h]
  · rw [ha, if_neg (not_le.mpr h)]

/-- Witness for C2 at the default state, where the raw tire force is
11000 and the clamp at F_max = 10000 fires. -/
theorem step_tire_force_clamp_witness :
    Vehicle.init.v ≠ 0 ∧
    ((Vehicle.init.c *
          ((Vehicle.init.GR * Vehicle.init.w_e * Vehicle.init.r_e - Vehicle.init.v) /
            Vehicle.init.v) ≥ Vehicle.init.F_max →
        (Vehicle.init.step 0 0).a =
          (Vehicle.init.F_max -
            (Vehicle.init.c_a * Vehicle.init.v ^ 2 + Vehicle.init.c_r1 * Vehicle.init.v +
              Vehicle.init.m * Vehicle.init.g * 0)) / Vehicle.init.m) ∧
      (Vehicle.init.c *
          ((Vehicle.init.GR * Vehicle.init.w_e * Vehicle.init.r_e - Vehicle.init.v) /
            Vehicle.init.v) < Vehicle.init.F_max →
        (Vehicle.init.step 0 0).a =
          (Vehicle.init.c *
              ((Vehicle.init.GR * Vehicle.init.w_e * Vehicle.init.r_e - Vehicle.init.v) /
                Vehicle.init.v) -
            (Vehicle.init.c_a * Vehicle.init.v ^ 2 + Vehicle.init.c_r1 * Vehicle.init.v +
              Vehicle.init.m * Vehicle.init.g * 0)) / Vehicle.init.m)) :=
  ⟨by decide, step_tire_force_clamp Vehicle.init 0 0 (by decide)⟩

/-- C4 counterexample: from the default state with zero throttle on a
level road, the velocity after two steps strictly exceeds the velocity
after one step, so the velocity is not monotonically decreasing and does
increase from one step to the next (the tire force is clamped at F_max
while the engine still spins near 100 rad per s, and that force dominates
drag and rolling resistance). -/
theorem zero_throttle_velocity_increases : vAt 1 < vAt 2 := by
  norm_num [vAt, runSteps, Vehicle.step, Vehicle.init, List.replicate]

/-- C4 amended: from the default state with zero throttle on a level
road, the velocity never decreases from one step to the next over the
first eight steps. -/
theorem zero_throttle_velocity_nondecreasing :
    vAt 0 ≤ vAt 1 ∧ vAt 1 ≤ vAt 2 ∧ vAt 2 ≤ vAt 3 ∧ vAt 3 ≤ vAt 4 ∧
    vAt 4 ≤ vAt 5 ∧ vAt 5 ≤ vAt 6 ∧ vAt 6 ≤ vAt 7 ∧ vAt 7 ≤ vAt 8 := by
  norm_num [vAt, runSteps, Vehicle.step, Vehicle.init, List.replicate]

/-- C5: after any finite sequence of step calls following construction,
reset restores the five state fields exactly to x = 0, v = 5, a = 0,
w_e = 100, w_e_dot = 0 and leaves every parameter field, and the time
step, unchanged. -/
theorem reset_restores_defaults (l : List (ℚ × ℚ)) :
    ((runSteps Vehicle.init l).reset).x = 0 ∧
    ((runSteps Vehicle.init l).reset).v = 5 ∧
    ((runSteps Vehicle.init l).reset).a = 0 ∧
    ((runSteps Vehicle.init l).reset).w_e = 100 ∧
    ((runSteps Vehicle.init l).reset).w_e_dot = 0 ∧
    ((runSteps Vehicle.init l).reset).a_0 = (runSteps Vehicle.init l).a_0 ∧
    ((runSteps Vehicle.init l).reset).a_1 = (runSteps Vehicle.init l).a_1 ∧
    ((runSteps Vehicle.init l).reset).a_2 = (runSteps Vehicle.init l).a_2 ∧
    ((runSteps Vehicle.init l).reset).GR = (runSteps Vehicle.init l).GR ∧
    ((runSteps Vehicle.init l).reset).r_e = (runSteps Vehicle.init l).r_e ∧
    ((runSteps Vehicle.init l).reset).J_e = (runSteps Vehicle.init l).J_e ∧
    ((runSteps Vehicle.init l).reset).m = (runSteps Vehicle.init l).m ∧
    ((runSteps Vehicle.init l).reset).g = (runSteps Vehicle.init l).g ∧
    ((runSteps Vehicle.init l).reset).c_a = (runSteps Vehicle.init l).c_a ∧
    ((runSteps Vehicle.init l).reset).c_r1 = (runSteps Vehicle.init l).c_r1 ∧
    ((runSteps Vehicle.init l).reset).c = (runSteps Vehicle.init l).c ∧
    ((runSteps Vehicle.init l).reset).F_max = (runSteps Vehicle.init l).F_max ∧
    ((runSteps Vehicle.init l).reset).sample_time = (runSteps Vehicle.init l).sample_time :=
  ⟨rfl, rfl, rfl, rfl, rfl, rfl, rfl, rfl, rfl, rfl, rfl, rfl, rfl, rfl, rfl, rfl, rfl, rfl⟩

/-- C6: step leaves every parameter field and the time step unchanged;
in this pure embedding it can touch nothing but the record it returns, so
the five state fields are the only mutable data it affects. -/
theorem step_preserves_parameters (veh : Vehicle) (throttle sin_alpha : ℚ) :
    (veh.step throttle sin_alpha).a_0 = veh.a_0 ∧
    (veh.step throttle sin_alpha).a_1 = veh.a_1 ∧
    (veh.step throttle sin_alpha).a_2 = veh.a_2 ∧
    (veh.step throttle sin_alpha).GR = veh.GR ∧
    (veh.step throttle sin_alpha).r_e = veh.r_e ∧
    (veh.step throttle sin_alpha).J_e = veh.J_e ∧
    (veh.step throttle sin_alpha).m = veh.m ∧
    (veh.step throttle sin_alpha).g = veh.g ∧
    (veh.step throttle sin_alpha).c_a = veh.c_a ∧
    (veh.step throttle sin_alpha).c_r1 = veh.c_r1 ∧
    (veh.step throttle sin_alpha).c = veh.c ∧
    (veh.step throttle sin_alpha).F_max = veh.F_max ∧
    (veh.step throttle sin_alpha).sample_time = veh.sample_time :=
  ⟨rfl, rfl, rfl, rfl, rfl, rfl, rfl, rfl, rfl, rfl, rfl, rfl, rfl⟩

/-- C7: step is deterministic: two vehicles with identical field values
under identical inputs step to identical results; the translation of the
void Python method returns the updated record, so callers observe only
the new state. -/
theorem step_deterministic (v1 v2 : Vehicle) (throttle sin_alpha : ℚ)
    (h : v1.a_0 = v2.a_0 ∧ v1.a_1 = v2.a_1 ∧ v1.a_2 = v2.a_2 ∧ v1.GR = v2.GR ∧
      v1.r_e = v2.r_e ∧ v1.J_e = v2.J_e ∧ v1.m = v2.m ∧ v1.g = v2.g ∧
      v1.c_a = v2.c_a ∧ v1.c_r1 = v2.c_r1 ∧ v1.c = v2.c ∧ v1.F_max = v2.F_max ∧
      v1.x = v2.x ∧ v1.v = v2.v ∧ v1.a = v2.a ∧ v1.w_e = v2.w_e ∧
      v1.w_e_dot = v2.w_e_dot ∧ v1.sample_time = v2.sample_time) :
    v1.step throttle sin_alpha = v2.step throttle sin_alpha := by
  have hv12 : v1 = v2 := by
    cases v1
    cases v2
    simp_all
  rw [hv12]

/-- Witness for C7: the default vehicle against itself. -/
theorem step_deterministic_witness :
    Vehicle.init.step 0 0 = Vehicle.init.step 0 0 :=
  step_deterministic Vehicle.init Vehicle.init 0 0
    ⟨rfl, rfl, rfl, rfl, rfl, rfl, rfl, rfl, rfl, rfl, rfl, rfl, rfl, rfl, rfl, rfl, rfl,
      rfl⟩

/-- C8: in the ramp scenario the throttle sampled at time index 100,
that is t = 1.0 s, equals 0.26 exactly. -/
theorem ramp_throttle_at_one_second : throttleProfile (t_data 100) = 0.26 := by
  norm_num [throttleProfile, t_data]

/-- C9: the post-step position, velocity and engine speed do not depend
on the inputs of the call: any two input pairs give identical x, v and
w_e; moreover the post-step acceleration depends on the inputs only
through the incline angle, so it is unchanged when only the throttle
differs. -/
theorem step_inputs_noninterference (veh : Vehicle) (t1 sa1 t2 sa2 : ℚ)
    (_hv : veh.v ≠ 0) :
    (veh.step t1 sa1).x = (veh.step t2 sa2).x ∧
    (veh.step t1 sa1).v = (veh.step t2 sa2).v ∧
    (veh.step t1 sa1).w_e = (veh.step t2 sa2).w_e ∧
    (veh.step t1 sa1).a = (veh.step t2 sa1).a :=
  ⟨rfl, rfl, rfl, rfl⟩

/-- Witness for C9 at the default state with input pairs (0, 0) and
(1, 1). -/
theorem step_inputs_noninterference_witness :
    Vehicle.init.v ≠ 0 ∧
    ((Vehicle.init.step 0 0).x = (Vehicle.init.step 1 1).x ∧
      (Vehicle.init.step 0 0).v = (Vehicle.init.step 1 1).v ∧
      (Vehicle.init.step 0 0).w_e = (Vehicle.init.step 1 1).w_e ∧
      (Vehicle.init.step 0 0).a = (Vehicle.init.step 1 0).a) :=
  ⟨by decide, step_inputs_noninterference Vehicle.init 0 0 1 1 (by decide)⟩

/-- C10: along any run from the default constructor the mass stays 2000
and the engine inertia stays 10, and whenever the current velocity is
nonzero the guarded Except-valued variant of step takes no error branch:
it returns exactly the unguarded step result. -/
theorem stepE_ok_of_v_ne_zero (l : List (ℚ × ℚ)) (throttle sin_alpha : ℚ)
    (hv : (runSteps Vehicle.init l).v ≠ 0) :
    (runSteps Vehicle.init l).m = 2000 ∧
    (runSteps Vehicle.init l).J_e = 10 ∧
    (runSteps Vehicle.init l).stepE throttle sin_alpha =
      Except.ok ((runSteps Vehicle.init l).step throttle sin_alpha) := by
  have hm : (runSteps Vehicle.init l).m = 2000 := runSteps_m l Vehicle.init
  have hj : (runSteps Vehicle.init l).J_e = 10 := runSteps_J_e l Vehicle.init
  refine ⟨hm, hj, ?_⟩
  unfold Vehicle.stepE
  rw [if_neg hv, if_neg (by rw [hm]; norm_num), if_neg (by rw [hj]; norm_num)]

/-- Witness for C10 on the empty run, where the velocity is the default
5. -/
theorem stepE_ok_of_v_ne_zero_witness :
    (runSteps Vehicle.init []).v ≠ 0 ∧
    ((runSteps Vehicle.init []).m = 2000 ∧
      (runSteps Vehicle.init []).J_e = 10 ∧
      (runSteps Vehicle.init []).stepE 0 0 =
        Except.ok ((runSteps Vehicle.init []).step 0 0)) :=
  ⟨by decide, stepE_ok_of_v_ne_zero [] 0 0 (by decide)⟩
